import Mathlib

set_option maxHeartbeats 1000000

/-!
Verification development for the Cyber-Pet visualization library
(files src/v5.0/pet_lib.py and src/v2.0/pet_lib.py).

The library manipulates open-ended Python dictionaries, renders markup
fragments (the rich JUPYTER display branch of every presenter), and saves or
loads a record through whole-file JSON serialization. The embedding below
models Python values, the json round trip, the file system as a map from
filename to stored document, and the values each presenter computes and
interpolates into its markup fragment. Display-mode dependent functions are
modelled on the rich (JUPYTER) branch, the branch that produces the markup
the specification describes; the plain terminal fallback only prints fixed
text lines and is modelled where a claim needs it.
-/

/-- The process-wide display mode, decided once at import time by probing for
IPython. JUPYTER is the rich markup path, TERMINAL the plain text fallback. -/
inductive Mode where
  | jupyter
  | terminal

/-- Python values that can appear in a pet or player record. Dictionaries are
string-keyed, matching every record the library builds or reads. Floats are
not modelled; no claim involves them. -/
inductive PyVal where
  | pyStr (s : String)
  | pyInt (n : Int)
  | pyBool (b : Bool)
  | pyNone
  | pyList (xs : List PyVal)
  | pyTuple (xs : List PyVal)
  | pyDict (entries : List (String × PyVal))

/-- A record: the entry list of a Python dict with string keys. -/
abbrev Dict := List (String × PyVal)

/-- JSON documents, as parsed by the json standard library module. -/
inductive JValue where
  | jStr (s : String)
  | jInt (n : Int)
  | jBool (b : Bool)
  | jNull
  | jArr (xs : List JValue)
  | jObj (entries : List (String × JValue))

mutual

/-- Serialization as performed by json.dump: strings, integers, booleans and
None map to their JSON counterparts, lists and tuples both become JSON
arrays, dicts become JSON objects. -/
def toJson : PyVal → JValue
  | .pyStr s => .jStr s
  | .pyInt n => .jInt n
  | .pyBool b => .jBool b
  | .pyNone => .jNull
  | .pyList xs => .jArr (toJsonList xs)
  | .pyTuple xs => .jArr (toJsonList xs)
  | .pyDict es => .jObj (toJsonEntries es)

def toJsonList : List PyVal → List JValue
  | [] => []
  | x :: xs => toJson x :: toJsonList xs

def toJsonEntries : List (String × PyVal) → List (String × JValue)
  | [] => []
  | (k, v) :: es => (k, toJson v) :: toJsonEntries es

end

/-- Last value bound to key k in an entry list, if any. -/
def lastVal? (k : String) : List (String × PyVal) → Option PyVal
  | [] => none
  | (k0, v) :: rest =>
    match lastVal? k rest with
    | some w => some w
    | none => if k0 = k then some v else none

/-- Duplicate-key resolution performed by json.load when it builds a dict
from parsed object pairs: each key keeps its first position and its last
value, exactly as dict(pairs) does. -/
def dedupEntries : List (String × PyVal) → List (String × PyVal)
  | [] => []
  | (k, v) :: rest =>
    (k, (lastVal? k rest).getD v) :: dedupEntries (rest.filter (fun p => p.1 != k))
termination_by es => es.length
decreasing_by
  simp only [List.length_cons]
  exact Nat.lt_succ_of_le (List.length_filter_le _ _)

mutual

/-- Deserialization as performed by json.load: arrays become lists (never
tuples), objects become dicts with duplicate keys resolved last-wins. -/
def fromJson : JValue → PyVal
  | .jStr s => .pyStr s
  | .jInt n => .pyInt n
  | .jBool b => .pyBool b
  | .jNull => .pyNone
  | .jArr xs => .pyList (fromJsonList xs)
  | .jObj es => .pyDict (dedupEntries (fromJsonEntries es))

def fromJsonList : List JValue → List PyVal
  | [] => []
  | x :: xs => fromJson x :: fromJsonList xs

def fromJsonEntries : List (String × JValue) → List (String × PyVal)
  | [] => []
  | (k, v) :: es => (k, fromJson v) :: fromJsonEntries es

end

/-- Keys of an entry list are pairwise distinct, as they are in every real
Python dict. -/
def keysNodupB : List (String × PyVal) → Bool
  | [] => true
  | (k, _) :: rest => rest.all (fun p => p.1 != k) && keysNodupB rest

mutual

/-- The value is itself the image of a JSON document: no tuples anywhere
(json.dump turns a tuple into an array, so json.load gives a list back) and
every dict has distinct keys. This is the JSON-representable fragment on
which the save/load round trip is exact. -/
def jsonRepresentable : PyVal → Bool
  | .pyStr _ => true
  | .pyInt _ => true
  | .pyBool _ => true
  | .pyNone => true
  | .pyList xs => jsonRepresentableList xs
  | .pyTuple _ => false
  | .pyDict es => keysNodupB es && jsonRepresentableEntries es

def jsonRepresentableList : List PyVal → Bool
  | [] => true
  | x :: xs => jsonRepresentable x && jsonRepresentableList xs

def jsonRepresentableEntries : List (String × PyVal) → Bool
  | [] => true
  | (_, v) :: es => jsonRepresentable v && jsonRepresentableEntries es

end

/-- Contents of a stored save file: either a well-formed JSON document (the
parse of the file text) or text that does not parse as JSON. -/
inductive FileData where
  | jsonDoc (j : JValue)
  | malformed (raw : String)

/-- The file system, restricted to whole-file reads and writes as the
library performs them: a map from filename to stored contents. -/
abbrev FS := String → Option FileData

/-- Console diagnostic printed by save_pet. The saved constructor stands for
the line starting with a check mark, saveFailed for the line printed by the
except branch with the exception text. With the values of PyVal every
json.dump call succeeds, so saveFailed is never produced by the model; it is
kept to mirror the except branch of the source. -/
inductive SaveResultMsg where
  | saved (filename : String)
  | saveFailed (errText : String)

/-- Console diagnostic printed by load_pet: success, the missing-file
warning from the FileNotFoundError handler, or the failure line from the
generic Exception handler (reached by the JSONDecodeError of malformed
contents). -/
inductive LoadResultMsg where
  | loaded (filename : String)
  | notFound (filename : String)
  | readFailed (errText : String)

/-- save_pet from src/v5.0/pet_lib.py lines 244-253: opens the file for
writing (truncating), serializes the record with json.dump, prints a
success line; any exception is caught and printed. Returns the updated file
system and the printed diagnostic. -/
def save_pet (pet_data : PyVal) (filename : String) (fs : FS) : FS × SaveResultMsg :=
  (fun g => if g = filename then some (.jsonDoc (toJson pet_data)) else fs g,
   .saved filename)

/-- load_pet from src/v5.0/pet_lib.py lines 255-269: opens and parses the
file. A missing file raises FileNotFoundError, handled by printing the
warning line and returning None; malformed contents raise JSONDecodeError,
handled by the generic except branch printing the failure line and
returning None; otherwise the parsed record is returned with a success
line. -/
def load_pet (filename : String) (fs : FS) : Option PyVal × LoadResultMsg :=
  match fs filename with
  | none => (none, .notFound filename)
  | some (.malformed raw) => (none, .readFailed raw)
  | some (.jsonDoc j) => (some (fromJson j), .loaded filename)

/-- Replace the value at key k, or append the binding, as a Python dict item
assignment does. -/
def setEntry : Dict → String → PyVal → Dict
  | [], k, v => [(k, v)]
  | (k0, v0) :: rest, k, v =>
    if k0 = k then (k0, v) :: rest else (k0, v0) :: setEntry rest k v

/-- dict.update with the extra keyword arguments of create_pet: each binding
is written in order, last write wins. -/
def dictUpdate (d : Dict) (kwargs : Dict) : Dict :=
  kwargs.foldl (fun acc p => setEntry acc p.1 p.2) d

/-- create_pet from src/v5.0/pet_lib.py lines 203-225: builds the dict with
the four named fields then overlays the extra keyword fields. -/
def create_pet (name : String) (hp : Int) (hunger : Int) (mood : String)
    (kwargs : Dict) : Dict :=
  dictUpdate
    [("name", .pyStr name), ("hp", .pyInt hp), ("hunger", .pyInt hunger),
     ("mood", .pyStr mood)] kwargs

/-- The empty file system used by concrete witnesses. -/
def emptyFS : FS := fun _ => none

/-- A file system whose every file holds text that does not parse as JSON. -/
def badFS : FS := fun _ => some (.malformed "not json")

/-- The record of the end-to-end scenario of the specification:
create_pet with name Byte, hp 80, hunger 30, mood happy. -/
def byteRec : Dict := create_pet "Byte" 80 30 "happy" []

/-- dict.get with a single lookup: the value at the key, if present. -/
def dictGet (d : Dict) (key : String) : Option PyVal :=
  (d.find? (fun p => p.1 == key)).map (fun p => p.2)

/-- dict.get with a default: the value at the key, or the default. -/
def effField (d : Dict) (key : String) (dflt : PyVal) : PyVal :=
  (dictGet d key).getD dflt

/-- Numeric view of a value in Python arithmetic: integers are themselves,
booleans count as 0 and 1, everything else is not a number. -/
def toNum : PyVal → Option Int
  | .pyInt n => some n
  | .pyBool b => some (if b then 1 else 0)
  | _ => none

/-- The value behaves as an integer in Python arithmetic and comparisons. -/
def isIntLike : PyVal → Bool
  | .pyInt _ => true
  | .pyBool _ => true
  | _ => false

/-- The value is the Python None object. -/
def isPyNone : PyVal → Bool
  | .pyNone => true
  | _ => false

/-- The dynamic comparison value < n of Python: defined for numbers, a
TypeError for any other operand. -/
def pyLtInt (v : PyVal) (n : Int) : Except String Bool :=
  match toNum v with
  | some m => .ok (decide (m < n))
  | none => .error "TypeError"

/-- The dynamic builtin min(value, n) of Python on an integer bound. -/
def pyMinInt (v : PyVal) (n : Int) : Except String Int :=
  match toNum v with
  | some m => .ok (min m n)
  | none => .error "TypeError"

/-- The dynamic comparison value > 0 of Python. -/
def pyGtZero (v : PyVal) : Except String Bool :=
  match toNum v with
  | some m => .ok (decide (0 < m))
  | none => .error "TypeError"

/-- _get_bar_color from src/v5.0/pet_lib.py lines 93-97, on the annotated
integer argument: below 20 red, below 50 orange, otherwise green. -/
def _get_bar_color (value : Int) : String :=
  if value < 20 then "#ff4444"
  else if value < 50 then "#ffbb33"
  else "#00C851"

/-- _get_bar_color applied to a dynamically typed value, as the calls from
show_stats perform it: each comparison may raise a TypeError. -/
def _get_bar_color_dyn (value : PyVal) : Except String String :=
  match pyLtInt value 20 with
  | .error e => .error e
  | .ok true => .ok "#ff4444"
  | .ok false =>
    match pyLtInt value 50 with
    | .error e => .error e
    | .ok true => .ok "#ffbb33"
    | .ok false => .ok "#00C851"

/-- One stat bar of the markup emitted by _create_bar_html inside show_stats
(src/v5.0/pet_lib.py lines 146-155): the label, the raw value shown in the
numeric caption, the bar color, and the fill width min(value, 100) in
percent. -/
structure BarD where
  label : String
  value : PyVal
  color : String
  width : Int

/-- _create_bar_html of v5.0 show_stats: computes the color first, then the
fill width interpolated in the markup. -/
def _create_bar_html (label : String) (value : PyVal) : Except String BarD :=
  match _get_bar_color_dyn value with
  | .error e => .error e
  | .ok color =>
    match pyMinInt value 100 with
    | .error e => .error e
    | .ok width => .ok ⟨label, value, color, width⟩

/-- The stat panel assembled by show_stats: the header name and the list of
bars in emission order. -/
structure StatsView where
  name : PyVal
  bars : List BarD

/-- show_stats from src/v5.0/pet_lib.py lines 136-169, rich branch: emits
the HP bar, then the Hunger bar, then a Happiness bar exactly when the
happiness argument is not None. All three bars color the raw value
directly. -/
def show_stats_view (name hp hunger happiness : PyVal) : Except String StatsView :=
  match _create_bar_html "HP" hp with
  | .error e => .error e
  | .ok hpBar =>
    match _create_bar_html "Hunger" hunger with
    | .error e => .error e
    | .ok hungerBar =>
      if isPyNone happiness then
        .ok ⟨name, [hpBar, hungerBar]⟩
      else
        match _create_bar_html "Happiness" happiness with
        | .error e => .error e
        | .ok happyBar => .ok ⟨name, [hpBar, hungerBar, happyBar]⟩

/-- The composition rendered by show_pet_dict: the mood value handed to
show_pet, then the stat panel handed to show_stats. -/
structure PetDictView where
  petMood : PyVal
  stats : StatsView

/-- show_pet_dict from src/v5.0/pet_lib.py lines 227-242: extracts name
(default Unknown), hp (default 0), hunger (default 0), happiness (default
None) and mood (default normal) from the dict, shows the mood portrait,
then shows the stat panel. -/
def show_pet_dict_view (pet_data : Dict) : Except String PetDictView :=
  let name := effField pet_data "name" (.pyStr "Unknown")
  let hp := effField pet_data "hp" (.pyInt 0)
  let hunger := effField pet_data "hunger" (.pyInt 0)
  let happiness := effField pet_data "happiness" .pyNone
  let mood := effField pet_data "mood" (.pyStr "normal")
  match show_stats_view name hp hunger happiness with
  | .error e => .error e
  | .ok sv => .ok ⟨mood, sv⟩

/-- The expression int(hp / max_hp * 100) of the source. A zero divisor
raises ZeroDivisionError, a non-numeric operand a TypeError (checked
first, as Python does); these error cases are exact. The integer result of
the success case is an idealization: Python evaluates hp / max_hp * 100 in
IEEE-754 double arithmetic before int truncates toward zero, while this
model computes the exact rational truncation Int.tdiv (100 * hp) max_hp,
and double rounding can shift the truncated value by one unit (in real
Python int(29 / 100 * 100) is 28, the exact truncation 29). Theorems about
the success path therefore rely only on consequences that hold whatever
integer the division step produced - the clamping to [0, 100] and the
comparison of the computed percentage with 50 - or on concrete operands at
which the double computation is exact (40/100 gives exactly 40.0 and
101/200 * 100 gives exactly 50.5 in doubles, so the truncations agree). -/
def pyIntDivMul100 (hp max_hp : PyVal) : Except String Int :=
  match toNum hp, toNum max_hp with
  | some a, some b =>
    if b = 0 then .error "ZeroDivisionError" else .ok (Int.tdiv (100 * a) b)
  | _, _ => .error "TypeError"

/-- The values render_hud interpolates into its markup: the name and gold
shown verbatim, the hp and max_hp of the caption, the clamped percentage
driving the bar width, and the two-level bar color. -/
structure HudView where
  name : PyVal
  hp : PyVal
  max_hp : PyVal
  gold : PyVal
  hp_percent : Int
  hp_color : String

/-- render_hud from src/v5.0/pet_lib.py lines 275-304, rich branch: extracts
name (default Player), hp (default 100), max_hp (default 100) and gold
(default 0); computes hp_percent = min(100, max(0, int(hp / max_hp * 100)))
with no guard against max_hp = 0; colors the bar green when hp_percent
exceeds 50 and red otherwise. -/
def render_hud_view (player : Dict) : Except String HudView :=
  let name := effField player "name" (.pyStr "Player")
  let hp := effField player "hp" (.pyInt 100)
  let max_hp := effField player "max_hp" (.pyInt 100)
  let gold := effField player "gold" (.pyInt 0)
  match pyIntDivMul100 hp max_hp with
  | .error e => .error e
  | .ok raw =>
    let hp_percent := min 100 (max 0 raw)
    let hp_color := if hp_percent > 50 then "#00C851" else "#ff4444"
    .ok ⟨name, hp, max_hp, gold, hp_percent, hp_color⟩

mutual

/-- The str() conversion used by f-string interpolation, simplified: the
exact quoting and escaping of container elements is not load-bearing for
any claim (the result only feeds an image filename probe). -/
def pyStrOf : PyVal → String
  | .pyStr s => s
  | v => pyReprOf v

def pyReprOf : PyVal → String
  | .pyStr s => "\x27" ++ s ++ "\x27"
  | .pyInt n => toString n
  | .pyBool true => "True"
  | .pyBool false => "False"
  | .pyNone => "None"
  | .pyList xs => "[" ++ pyReprList xs ++ "]"
  | .pyTuple xs => "(" ++ pyReprList xs ++ ")"
  | .pyDict es => "\x7b" ++ pyReprEntries es ++ "\x7d"

def pyReprList : List PyVal → String
  | [] => ""
  | [x] => pyReprOf x
  | x :: xs => pyReprOf x ++ ", " ++ pyReprList xs

def pyReprEntries : List (String × PyVal) → String
  | [] => ""
  | [(k, v)] => "\x27" ++ k ++ "\x27: " ++ pyReprOf v
  | (k, v) :: es => "\x27" ++ k ++ "\x27: " ++ pyReprOf v ++ ", " ++ pyReprEntries es

end

/-- _get_img_path from src/v5.0/pet_lib.py lines 76-84: probes the primary
assets directory, then the relative fallback two levels up; returns the
first existing path, if any. The ambient file existence check is passed in
as a predicate. -/
def _get_img_path (assetExists : String → Bool) (filename : String) : Option String :=
  let path := "assets/images/" ++ filename
  if assetExists path then some path
  else
    let path2 := "../../assets/images/" ++ filename
    if assetExists path2 then some path2 else none

/-- The image cell of a dashboard card: an embedded base64 image of the
located file, or the gray placeholder box showing the mood text. -/
inductive ImgTag where
  | embeddedImage (path : String)
  | placeholder (moodText : String)

/-- The values one entity card of show_dashboard interpolates: name, hp and
max_hp shown verbatim, the image cell, the unclamped percentage for the bar
width, and the fixed styling picked by is_enemy. -/
structure Card where
  name : PyVal
  hp : PyVal
  max_hp : PyVal
  img : ImgTag
  hp_percent : Int
  hp_color : String
  border : String
  bg : String

/-- What occupies one of the two card positions of the dashboard: the empty
string returned by _create_card for a falsy entity, the fixed-width empty
spacer div used for an absent enemy, or a full card. -/
inductive CardSlot where
  | blank
  | emptyDiv
  | card (c : Card)

/-- _create_card inside show_dashboard (src/v5.0/pet_lib.py lines 322-358):
a falsy entity yields the empty string; otherwise the card is built from
name (default Unknown), hp (default 100), max_hp (default 100) and mood
(default normal), with the mood image resolved through _get_img_path and
hp_percent = int(hp / max_hp * 100) guarded by max_hp > 0 (zero or negative
max_hp yields 0). -/
def _create_card (entity : Dict) (is_enemy : Bool) (assetExists : String → Bool) :
    Except String CardSlot :=
  if entity.isEmpty then .ok .blank
  else
    let name := effField entity "name" (.pyStr "Unknown")
    let hp := effField entity "hp" (.pyInt 100)
    let max_hp := effField entity "max_hp" (.pyInt 100)
    let mood := effField entity "mood" (.pyStr "normal")
    let img_filename := pyStrOf mood ++ ".png"
    let img_tag : ImgTag :=
      match _get_img_path assetExists img_filename with
      | some p => .embeddedImage p
      | none => .placeholder (pyStrOf mood)
    match pyGtZero max_hp with
    | .error e => .error e
    | .ok gt =>
      match (if gt then pyIntDivMul100 hp max_hp else .ok 0) with
      | .error e => .error e
      | .ok hp_percent =>
        .ok (.card ⟨name, hp, max_hp, img_tag, hp_percent,
          if is_enemy then "#ff4444" else "#00C851",
          if is_enemy then "2px solid #ff4444" else "2px solid #00C851",
          if is_enemy then "rgba(50, 0, 0, 0.1)" else "rgba(0, 50, 0, 0.1)"⟩)

/-- The composite dashboard: the player slot, the enemy slot, and the log
lines in the order they are written into the log area. -/
structure DashView where
  playerSlot : CardSlot
  enemySlot : CardSlot
  logRows : List String

/-- show_dashboard from src/v5.0/pet_lib.py lines 306-381, rich branch:
builds the player card, then the enemy card when the enemy dict is truthy
and the fixed-width empty spacer div otherwise, then writes the last five
log entries iterating over reversed(logs[-5:]), newest first. -/
def show_dashboard_view (player : Dict) (enemy : Option Dict) (logs : List String)
    (assetExists : String → Bool) : Except String DashView :=
  match _create_card player false assetExists with
  | .error e => .error e
  | .ok player_slot =>
    match (match enemy with
           | some e => if e.isEmpty then Except.ok CardSlot.emptyDiv
                       else _create_card e true assetExists
           | none => Except.ok CardSlot.emptyDiv) with
    | .error e => .error e
    | .ok enemy_slot =>
      let log_rows := (logs.drop (logs.length - 5)).reverse
      .ok ⟨player_slot, enemy_slot, log_rows⟩

/-- SOUND_LIBRARY from src/v5.0/pet_lib.py lines 59-66: the static mapping
from sound tag to remote audio URL. -/
def SOUND_LIBRARY : List (String × String) :=
  [("attack", "https://commondatastorage.googleapis.com/codeskulptor-assets/Epoq-Lepidoptera.ogg"),
   ("hit", "https://commondatastorage.googleapis.com/codeskulptor-assets/week7-brrring.m4a"),
   ("level_up", "https://commondatastorage.googleapis.com/codeskulptor-demos/riceracer_assets/fx/win.ogg"),
   ("game_over", "https://commondatastorage.googleapis.com/codeskulptor-assets/Evillaugh.ogg"),
   ("bgm", "https://commondatastorage.googleapis.com/codeskulptor-demos/pyman_assets/ateapill.ogg"),
   ("heal", "https://commondatastorage.googleapis.com/codeskulptor-demos/riceracer_assets/fx/engine-1.ogg")]

/-- Membership lookup in the sound library. -/
def lookupSound (tag : String) : Option String :=
  (SOUND_LIBRARY.find? (fun p => p.1 == tag)).map (fun p => p.2)

/-- The joined key listing printed for an unknown tag. -/
def availableSounds : String :=
  String.intercalate ", " (SOUND_LIBRARY.map (fun p => p.1))

/-- The observable effect of one play_sound call: either console lines with
no playback, or the audio resource handed to the display surface with
autoplay and no completion signal (the function returns None either way). -/
inductive SoundResult where
  | printedOnly (lines : List String)
  | played (url : String)

/-- play_sound from src/v5.0/pet_lib.py lines 430-450: the terminal branch
prints a single fixed line for any tag and never plays; the rich branch
looks the tag up in SOUND_LIBRARY, prints the unknown-tag warning plus the
available tags for a miss, and hands the URL to the display surface for a
hit. -/
def play_sound (mode : Mode) (sound_name : String) : SoundResult :=
  match mode with
  | .terminal => .printedOnly ["[SOUND] Playing: " ++ sound_name]
  | .jupyter =>
    match lookupSound sound_name with
    | none => .printedOnly
        ["⚠️ Unknown sound: " ++ sound_name,
         "Available sounds: " ++ availableSounds]
    | some url => .played url

namespace V2

/-- _get_bar_color from src/v2.0/pet_lib.py lines 67-70: identical threshold
chain to the v5.0 version. -/
def _get_bar_color (value : Int) : String :=
  if value < 20 then "#ff4444"
  else if value < 50 then "#ffbb33"
  else "#00C851"

/-- One stat bar of the v2.0 panel, on the annotated integer arguments. -/
structure Bar where
  label : String
  value : Int
  color : String
  width : Int

/-- _create_bar_html from src/v2.0/pet_lib.py lines 120-131: with
reverse_color the classification value is 100 - value, otherwise the value
itself; the fill width stays min(value, 100) either way. -/
def _create_bar_html (label : String) (value : Int) (reverse_color : Bool) : Bar :=
  let color_value := if reverse_color then 100 - value else value
  let color := _get_bar_color color_value
  ⟨label, value, color, min value 100⟩

/-- show_stats from src/v2.0/pet_lib.py lines 110-145, rich branch: the HP
bar direct, the Hunger bar with reverse_color=True, and a direct Happiness
bar exactly when happiness is passed. -/
def show_stats_bars (hp hunger : Int) (happiness : Option Int) : List Bar :=
  [_create_bar_html "HP" hp false, _create_bar_html "Hunger" hunger true] ++
    (match happiness with
     | some h => [_create_bar_html "Happiness" h false]
     | none => [])

end V2

/-- One operation a library function performs on a record dict. A get is a
pure read; setItem is the dict item assignment no library function ever
performs; readAllEntries is the full traversal json.dump performs. -/
inductive DictOp where
  | get (key : String) (dflt : PyVal)
  | setItem (key : String) (v : PyVal)
  | readAllEntries

/-- Effect of one operation on the record: reads leave it unchanged, a
setItem writes through setEntry. -/
def applyOp (d : Dict) (op : DictOp) : Dict :=
  match op with
  | .get _ _ => d
  | .setItem k v => setEntry d k v
  | .readAllEntries => d

/-- Effect of a sequence of operations on the record. -/
def applyOps (ops : List DictOp) (d : Dict) : Dict :=
  ops.foldl applyOp d

/-- The operations show_pet_dict performs on its record: the five reads of
src/v5.0/pet_lib.py lines 232-236 and nothing else. -/
def recordOps_show_pet_dict : List DictOp :=
  [.get "name" (.pyStr "Unknown"), .get "hp" (.pyInt 0), .get "hunger" (.pyInt 0),
   .get "happiness" .pyNone, .get "mood" (.pyStr "normal")]

/-- show_stats receives the name and the stat numbers by value and is never
handed the record itself, so it performs no operation on it. -/
def recordOps_show_stats : List DictOp := []

/-- The operations render_hud performs on the player record, per display
branch: four reads (lines 280-281 in the terminal branch, lines 284-287 in
the rich branch) and nothing else. -/
def recordOps_render_hud (mode : Mode) : List DictOp :=
  match mode with
  | .terminal =>
    [.get "name" (.pyStr "Player"), .get "hp" (.pyInt 0),
     .get "max_hp" (.pyInt 100), .get "gold" (.pyInt 0)]
  | .jupyter =>
    [.get "name" (.pyStr "Player"), .get "hp" (.pyInt 100),
     .get "max_hp" (.pyInt 100), .get "gold" (.pyInt 0)]

/-- The operations show_dashboard performs on one entity record, per display
branch: the terminal branch reads name and hp (lines 313-315); the rich
branch reads name, hp, max_hp and mood inside _create_card (lines 324-327);
nothing else. -/
def recordOps_show_dashboard (mode : Mode) : List DictOp :=
  match mode with
  | .terminal => [.get "name" .pyNone, .get "hp" .pyNone]
  | .jupyter =>
    [.get "name" (.pyStr "Unknown"), .get "hp" (.pyInt 100),
     .get "max_hp" (.pyInt 100), .get "mood" (.pyStr "normal")]

/-- The operations save_pet performs on the record: json.dump serializes by
traversing every entry (line 250) and writes the file; the record itself is
only read. -/
def recordOps_save_pet : List DictOp := [.readAllEntries]

/-- The fields of the documented record data model that enter arithmetic in
a dashboard card: hp and max_hp, each an integer (or absent, falling back
to the integer default). -/
def cardFieldsOk (d : Dict) : Bool :=
  isIntLike (effField d "hp" (.pyInt 100)) &&
    isIntLike (effField d "max_hp" (.pyInt 100))

/-- The fields of the documented record data model that enter arithmetic in
the stat panel reached from show_pet_dict: hp and hunger integers, and
happiness an integer or None (or absent). -/
def petStatsFieldsOk (d : Dict) : Bool :=
  isIntLike (effField d "hp" (.pyInt 0)) &&
    isIntLike (effField d "hunger" (.pyInt 0)) &&
    (isPyNone (effField d "happiness" .pyNone) ||
      isIntLike (effField d "happiness" .pyNone))

/-- The player record of the end-to-end HUD scenario of the specification:
name Hero, hp 40, max_hp 100, gold 50. -/
def hero40 : Dict :=
  [("name", .pyStr "Hero"), ("hp", .pyInt 40), ("max_hp", .pyInt 100),
   ("gold", .pyInt 50)]

/-- Claim C10: show_pet_dict replaces every absent field by its fixed
default before rendering: name Unknown, hp 0 (giving an empty bar colored
with the critical red, not the creation-time default 100), hunger 0,
happiness absent (its bar omitted, leaving two bars), mood normal. Records
are assumed to follow the documented integer typing of the stat fields. -/

theorem lastVal?_eq_none (k : String) (rest : List (String × PyVal))
    (h : rest.all (fun p => p.1 != k) = true) : lastVal? k rest = none := by
  induction rest with
  | nil => rfl
  | cons p rest ih =>
    simp only [List.all_cons, Bool.and_eq_true, bne_iff_ne, ne_eq] at h
    obtain ⟨h1, h2⟩ := h
    obtain ⟨k0, v⟩ := p
    simp only [lastVal?, ih h2]
    simp only [ne_eq] at h1
    simp [h1]

theorem dedupEntries_eq_self (es : List (String × PyVal))
    (h : keysNodupB es = true) : dedupEntries es = es := by
  induction es with
  | nil => rw [dedupEntries]
  | cons p rest ih =>
    obtain ⟨k, v⟩ := p
    simp only [keysNodupB, Bool.and_eq_true] at h
    obtain ⟨h1, h2⟩ := h
    rw [dedupEntries]
    rw [lastVal?_eq_none k rest h1]
    rw [List.filter_eq_self.mpr]
    · rw [ih h2]
      rfl
    · intro a ha
      have := List.all_eq_true.mp h1 a ha
      exact this

mutual

theorem fromJson_toJson : ∀ (v : PyVal), jsonRepresentable v = true →
    fromJson (toJson v) = v
  | .pyStr _, _ => rfl
  | .pyInt _, _ => rfl
  | .pyBool _, _ => rfl
  | .pyNone, _ => rfl
  | .pyList xs, h => by
    simp only [jsonRepresentable] at h
    simp only [toJson, fromJson]
    rw [fromJsonList_toJsonList xs h]
  | .pyTuple xs, h => by
    simp only [jsonRepresentable] at h
    exact (Bool.false_ne_true h).elim
  | .pyDict es, h => by
    simp only [jsonRepresentable, Bool.and_eq_true] at h
    simp only [toJson, fromJson]
    rw [fromJsonEntries_toJsonEntries es h.2, dedupEntries_eq_self es h.1]

theorem fromJsonList_toJsonList : ∀ (xs : List PyVal),
    jsonRepresentableList xs = true → fromJsonList (toJsonList xs) = xs
  | [], _ => rfl
  | x :: xs, h => by
    simp only [jsonRepresentableList, Bool.and_eq_true] at h
    simp only [toJsonList, fromJsonList]
    rw [fromJson_toJson x h.1, fromJsonList_toJsonList xs h.2]

theorem fromJsonEntries_toJsonEntries : ∀ (es : List (String × PyVal)),
    jsonRepresentableEntries es = true →
    fromJsonEntries (toJsonEntries es) = es
  | [], _ => rfl
  | (k, v) :: es, h => by
    simp only [jsonRepresentableEntries, Bool.and_eq_true] at h
    simp only [toJsonEntries, fromJsonEntries]
    rw [fromJson_toJson v h.1, fromJsonEntries_toJsonEntries es h.2]

end

theorem isIntLike_toNum (v : PyVal) (h : isIntLike v = true) :
    ∃ n, toNum v = some n := by
  cases v <;> simp [isIntLike, toNum] at h ⊢

theorem _create_bar_html_num (l : String) (v : PyVal) (n : Int)
    (hn : toNum v = some n) :
    _create_bar_html l v = .ok ⟨l, v, _get_bar_color n, min n 100⟩ := by
  by_cases h1 : n < 20
  · simp [_create_bar_html, _get_bar_color_dyn, pyLtInt, pyMinInt, hn,
      _get_bar_color, h1]
  · by_cases h2 : n < 50 <;>
      simp [_create_bar_html, _get_bar_color_dyn, pyLtInt, pyMinInt, hn,
        _get_bar_color, h1, h2]

theorem _create_bar_html_color (l : String) (v : PyVal) (b : BarD)
    (h : _create_bar_html l v = .ok b) :
    _get_bar_color_dyn v = .ok b.color ∧ b.value = v ∧ b.label = l := by
  cases hc : _get_bar_color_dyn v with
  | error e => simp [_create_bar_html, hc] at h
  | ok c =>
    cases hw : pyMinInt v 100 with
    | error e => simp [_create_bar_html, hc, hw] at h
    | ok w =>
      simp only [_create_bar_html, hc, hw] at h
      cases h
      exact ⟨rfl, rfl, rfl⟩

theorem show_stats_view_bar_color (name hp hunger happiness : PyVal)
    (view : StatsView) (h : show_stats_view name hp hunger happiness = .ok view)
    (bar : BarD) (hb : bar ∈ view.bars) :
    _get_bar_color_dyn bar.value = .ok bar.color := by
  cases hhp : _create_bar_html "HP" hp with
  | error e => simp [show_stats_view, hhp] at h
  | ok hpBar =>
    cases hhu : _create_bar_html "Hunger" hunger with
    | error e => simp [show_stats_view, hhp, hhu] at h
    | ok huBar =>
      by_cases hnone : isPyNone happiness = true
      · simp only [show_stats_view, hhp, hhu, hnone, if_pos] at h
        cases h
        simp only [List.mem_cons, List.mem_singleton, List.not_mem_nil,
          or_false] at hb
        rcases hb with hb | hb
        · subst hb
          obtain ⟨c1, c2, _⟩ := _create_bar_html_color _ _ _ hhp
          rw [c2]; exact c1
        · subst hb
          obtain ⟨c1, c2, _⟩ := _create_bar_html_color _ _ _ hhu
          rw [c2]; exact c1
      · cases hha : _create_bar_html "Happiness" happiness with
        | error e => simp [show_stats_view, hhp, hhu, hnone, hha] at h
        | ok haBar =>
          simp only [show_stats_view, hhp, hhu, hnone, if_neg, hha,
            Bool.false_eq_true] at h
          cases h
          simp only [List.mem_cons, List.mem_singleton, List.not_mem_nil,
            or_false] at hb
          rcases hb with hb | hb | hb
          · subst hb
            obtain ⟨c1, c2, _⟩ := _create_bar_html_color _ _ _ hhp
            rw [c2]; exact c1
          · subst hb
            obtain ⟨c1, c2, _⟩ := _create_bar_html_color _ _ _ hhu
            rw [c2]; exact c1
          · subst hb
            obtain ⟨c1, c2, _⟩ := _create_bar_html_color _ _ _ hha
            rw [c2]; exact c1

theorem _get_bar_color_dyn_int (n : Int) :
    _get_bar_color_dyn (.pyInt n) = .ok (_get_bar_color n) := by
  have := _create_bar_html_num "x" (.pyInt n) n rfl
  exact (_create_bar_html_color _ _ _ this).1

theorem _create_card_ok (d : Dict) (is_enemy : Bool) (assetExists : String → Bool)
    (h : cardFieldsOk d = true) :
    ∃ slot, _create_card d is_enemy assetExists = .ok slot := by
  simp only [cardFieldsOk, Bool.and_eq_true] at h
  obtain ⟨a, ha⟩ := isIntLike_toNum _ h.1
  obtain ⟨m, hm⟩ := isIntLike_toNum _ h.2
  cases hc : _create_card d is_enemy assetExists with
  | ok s => exact ⟨s, rfl⟩
  | error e =>
    exfalso
    by_cases hd : d.isEmpty
    · simp [_create_card, hd] at hc
    · by_cases hgt : (0 : Int) < m
      · have hne : m ≠ 0 := by omega
        simp [_create_card, hd, pyGtZero, hm, hgt, pyIntDivMul100, ha, hne] at hc
      · simp [_create_card, hd, pyGtZero, hm, hgt] at hc

theorem getLast?_drop {α : Type} (l : List α) (k : Nat) (h : k < l.length) :
    (l.drop k).getLast? = l.getLast? := by
  induction l generalizing k with
  | nil => simp at h
  | cons a t ih =>
    cases k with
    | zero => rfl
    | succ k =>
      simp only [List.length_cons, Nat.succ_lt_succ_iff] at h
      rw [List.drop_succ_cons]
      cases t with
      | nil => simp at h
      | cons b t2 =>
        rw [List.getLast?_cons_cons]
        exact ih k h

/-- Claim C1: for every pet record whose field set is JSON-representable,
calling load_pet on a path right after save_pet wrote that path returns a
record deep-equal to the original (the model returns the record itself,
with the success diagnostic). -/
theorem save_load_roundtrip (r : PyVal) (filename : String) (fs : FS)
    (h : jsonRepresentable r = true) :
    load_pet filename (save_pet r filename fs).1 =
      (some r, LoadResultMsg.loaded filename) := by
  simp [save_pet, load_pet, fromJson_toJson r h]

theorem save_load_roundtrip_witness :
    jsonRepresentable (.pyDict byteRec) = true ∧
    load_pet "t.json" (save_pet (.pyDict byteRec) "t.json" emptyFS).1 =
      (some (.pyDict byteRec), LoadResultMsg.loaded "t.json") :=
  ⟨by decide, save_load_roundtrip (.pyDict byteRec) "t.json" emptyFS (by decide)⟩

/-- Claim C2 (code bug in the source): render_hud on the rich display branch
does NOT return normally for every player record: with max_hp = 0 the
expression int(hp / max_hp * 100) raises ZeroDivisionError, which no
handler catches, so the error crosses the library boundary. The sibling
show_dashboard guards the same division with max_hp > 0, and every other
file or sound failure in the library is caught, so the unguarded division
contradicts the documented no-raise design. -/
theorem render_hud_zero_max_hp_raises :
    render_hud_view
      [("name", .pyStr "Hero"), ("hp", .pyInt 10), ("max_hp", .pyInt 0)] =
      .error "ZeroDivisionError" := rfl

/-- Claim C4: load_pet reports a missing file and malformed contents as two
distinct failure diagnostics, and in both cases returns None to the caller
instead of propagating the error. -/
theorem load_pet_failure_cases (filename : String) (fs : FS) :
    (fs filename = none →
      load_pet filename fs = (none, LoadResultMsg.notFound filename)) ∧
    (∀ raw, fs filename = some (.malformed raw) →
      load_pet filename fs = (none, LoadResultMsg.readFailed raw)) ∧
    (∀ raw, LoadResultMsg.notFound filename ≠ LoadResultMsg.readFailed raw) := by
  refine ⟨fun h => ?_, fun raw h => ?_, fun raw h => ?_⟩
  · simp [load_pet, h]
  · simp [load_pet, h]
  · cases h

theorem load_pet_failure_cases_witness :
    load_pet "save.json" emptyFS = (none, LoadResultMsg.notFound "save.json") ∧
    load_pet "save.json" badFS = (none, LoadResultMsg.readFailed "not json") :=
  ⟨(load_pet_failure_cases "save.json" emptyFS).1 rfl,
   (load_pet_failure_cases "save.json" badFS).2.1 "not json" rfl⟩

/-- Claim C7: in the v2.0 show_stats the hunger bar is classified with the
three thresholds applied to 100 - hunger, while the HP and happiness bars
apply them to the value directly, and every bar keeps fill width
min(value, 100). -/
theorem v2_show_stats_hunger_inverted (hp hunger : Int) (happiness : Option Int) :
    V2.show_stats_bars hp hunger happiness =
      [⟨"HP", hp, V2._get_bar_color hp, min hp 100⟩,
       ⟨"Hunger", hunger, V2._get_bar_color (100 - hunger), min hunger 100⟩] ++
      (match happiness with
       | some h => [⟨"Happiness", h, V2._get_bar_color h, min h 100⟩]
       | none => []) ∧
    V2._get_bar_color (100 - hunger) =
      (if 100 - hunger < 20 then "#ff4444"
       else if 100 - hunger < 50 then "#ffbb33"
       else "#00C851") := by
  refine ⟨?_, rfl⟩
  cases happiness <;> rfl

/-- Claim C8: on the rich display branch, play_sound with a tag missing from
the sound library prints the unknown-tag warning and the list of available
tags and performs no playback (and raises nothing); with a known tag it
hands the remote URL to the display surface for autonomous playback, with
no completion signal (the function returns None). The terminal fallback
branch instead prints a single text line and never plays. -/
theorem play_sound_unknown_and_known (tag : String) :
    (lookupSound tag = none →
      play_sound .jupyter tag = .printedOnly
        ["⚠️ Unknown sound: " ++ tag, "Available sounds: " ++ availableSounds]) ∧
    (∀ url, lookupSound tag = some url →
      play_sound .jupyter tag = .played url) := by
  refine ⟨fun h => ?_, fun url h => ?_⟩
  · simp [play_sound, h]
  · simp [play_sound, h]

theorem play_sound_witness :
    play_sound .jupyter "not_a_real_tag" = .printedOnly
      ["⚠️ Unknown sound: not_a_real_tag",
       "Available sounds: attack, hit, level_up, game_over, bgm, heal"] ∧
    play_sound .jupyter "attack" =
      .played "https://commondatastorage.googleapis.com/codeskulptor-assets/Epoq-Lepidoptera.ogg" :=
  ⟨(play_sound_unknown_and_known "not_a_real_tag").1 rfl,
   (play_sound_unknown_and_known "attack").2
     "https://commondatastorage.googleapis.com/codeskulptor-assets/Epoq-Lepidoptera.ogg" rfl⟩

/-- Claim C9: no presenter or save operation mutates the record it is
passed: the operations each function performs on its record dict are reads
only, so replaying them leaves the record equal to what it was before the
call, in either display mode. -/
theorem presenters_do_not_mutate_record (d : Dict) (mode : Mode) :
    applyOps recordOps_show_pet_dict d = d ∧
    applyOps recordOps_show_stats d = d ∧
    applyOps (recordOps_render_hud mode) d = d ∧
    applyOps (recordOps_show_dashboard mode) d = d ∧
    applyOps recordOps_save_pet d = d := by
  cases mode <;> exact ⟨rfl, rfl, rfl, rfl, rfl⟩

/-- Claim C3: for integer values v in [0, 100], every bar emitted by the
v5.0 show_stats whose value is v is colored by the exact three-level rule:
red below 20, orange from 20 up to but excluding 50, green from 50 on. -/
theorem show_stats_color_three_level (v : Int) (h0 : 0 ≤ v) (h1 : v ≤ 100)
    (name hp hunger happiness : PyVal) (view : StatsView) (bar : BarD)
    (hview : show_stats_view name hp hunger happiness = .ok view)
    (hbar : bar ∈ view.bars) (hval : bar.value = .pyInt v) :
    bar.color =
      (if v < 20 then "#ff4444" else if v < 50 then "#ffbb33" else "#00C851") := by
  have hc := show_stats_view_bar_color name hp hunger happiness view hview bar hbar
  rw [hval, _get_bar_color_dyn_int v] at hc
  have : bar.color = _get_bar_color v := (Except.ok.injEq _ _).mp hc.symm
  rw [this, _get_bar_color]

theorem show_stats_color_three_level_witness :
    BarD.color ⟨"HP", .pyInt 40, "#ffbb33", 40⟩ =
      (if (40 : Int) < 20 then "#ff4444"
       else if (40 : Int) < 50 then "#ffbb33"
       else "#00C851") :=
  show_stats_color_three_level 40 (by decide) (by decide)
    (.pyStr "Pet") (.pyInt 40) (.pyInt 90) .pyNone
    ⟨.pyStr "Pet", [⟨"HP", .pyInt 40, "#ffbb33", 40⟩,
                    ⟨"Hunger", .pyInt 90, "#00C851", 90⟩]⟩
    ⟨"HP", .pyInt 40, "#ffbb33", 40⟩
    rfl (List.mem_cons_self _ _) rfl

/-- Claim C5: for every player record, optional enemy record and log list
(records following the documented integer typing of hp and max_hp), the
rich dashboard renders: the enemy position holds the fixed-width empty
spacer, not an omitted card, when the enemy is absent; and the log area
holds exactly the reversal of the at-most-five-element tail of the log
list, so at most 5 entries with the most recent one first. -/
theorem show_dashboard_enemy_slot_and_logs (player : Dict) (enemy : Option Dict)
    (logs : List String) (assetExists : String → Bool)
    (hplayer : cardFieldsOk player = true)
    (henemy : ∀ e, enemy = some e → cardFieldsOk e = true) :
    (show_dashboard_view player enemy logs assetExists).toOption.isSome = true ∧
    (enemy = none →
      (show_dashboard_view player enemy logs assetExists).toOption.map
        (fun v => v.enemySlot) = some CardSlot.emptyDiv) ∧
    ((show_dashboard_view player enemy logs assetExists).toOption.map
        (fun v => v.logRows) =
      some ((logs.drop (logs.length - 5)).reverse)) ∧
    ((logs.drop (logs.length - 5)).reverse).length ≤ 5 ∧
    (logs ≠ [] →
      ((logs.drop (logs.length - 5)).reverse).head? = logs.getLast?) := by
  obtain ⟨ps, hps⟩ := _create_card_ok player false assetExists hplayer
  have henemyslot : ∃ es,
      (match enemy with
       | some e => if e.isEmpty then Except.ok CardSlot.emptyDiv
                   else _create_card e true assetExists
       | none => Except.ok CardSlot.emptyDiv) = .ok es ∧
      (enemy = none → es = .emptyDiv) := by
    cases enemy with
    | none => exact ⟨.emptyDiv, rfl, fun _ => rfl⟩
    | some e =>
      by_cases he : e.isEmpty
      · exact ⟨.emptyDiv, by simp [he], fun hcon => nomatch hcon⟩
      · obtain ⟨s, hs⟩ := _create_card_ok e true assetExists (henemy e rfl)
        exact ⟨s, by simp [he, hs], fun hcon => nomatch hcon⟩
  obtain ⟨es, hes, hesnone⟩ := henemyslot
  have hview : show_dashboard_view player enemy logs assetExists =
      .ok ⟨ps, es, (logs.drop (logs.length - 5)).reverse⟩ := by
    simp only [show_dashboard_view, hps, hes]
  refine ⟨?_, ?_, ?_, ?_, ?_⟩
  · rw [hview]; rfl
  · intro hnone
    rw [hview, hesnone hnone]
    rfl
  · rw [hview]; rfl
  · rw [List.length_reverse, List.length_drop]; omega
  · intro hne
    rw [List.head?_reverse]
    apply getLast?_drop
    have := List.length_pos.mpr hne
    omega

theorem show_dashboard_witness :
    (show_dashboard_view [("name", .pyStr "Hero"), ("hp", .pyInt 30)] none
      ["log one", "log two"] (fun _ => false)).toOption.isSome = true ∧
    (none = (none : Option Dict) →
      (show_dashboard_view [("name", .pyStr "Hero"), ("hp", .pyInt 30)] none
        ["log one", "log two"] (fun _ => false)).toOption.map
          (fun v => v.enemySlot) = some CardSlot.emptyDiv) ∧
    ((show_dashboard_view [("name", .pyStr "Hero"), ("hp", .pyInt 30)] none
        ["log one", "log two"] (fun _ => false)).toOption.map
          (fun v => v.logRows) =
      some ((["log one", "log two"].drop (["log one", "log two"].length - 5)).reverse)) ∧
    ((["log one", "log two"].drop (["log one", "log two"].length - 5)).reverse).length ≤ 5 ∧
    (["log one", "log two"] ≠ ([] : List String) →
      ((["log one", "log two"].drop
          (["log one", "log two"].length - 5)).reverse).head? =
        ["log one", "log two"].getLast?) :=
  show_dashboard_enemy_slot_and_logs
    [("name", .pyStr "Hero"), ("hp", .pyInt 30)] none ["log one", "log two"]
    (fun _ => false) (by decide) (fun e hcon => nomatch hcon)

/-- Claim C6 counterexample: the claim says the HP bar is good exactly when
the hp fraction exceeds 50 percent, but with hp 101 and max_hp 200 the
fraction 101/200 exceeds one half while render_hud computes the truncated
integer percentage 50, fails the strict comparison with 50, and colors the
bar red. -/
theorem render_hud_fraction_rule_counterexample :
    (render_hud_view [("hp", .pyInt 101), ("max_hp", .pyInt 200)]).toOption.map
      (fun v => v.hp_color) = some "#ff4444" ∧
    ((101 : Rat) / 200 > 50 / 100) := by
  exact ⟨rfl, by norm_num⟩

theorem effField_none (d : Dict) (k : String) (dflt : PyVal)
    (h : dictGet d k = none) : effField d k dflt = dflt := by
  simp [effField, h]

/-- Claim C6, amended: whenever render_hud returns a rendered HUD for a
player record, it classifies the HP bar two-level: the bar is green
exactly when the integer percentage the program computed exceeds 50, and
red otherwise - not exactly when the hp fraction exceeds 50 percent, since
a fraction whose computed integer percentage is 50 (such as 50.5 percent)
is classified red - and that percentage is always clamped to [0, 100]; in
particular hp 40 of max_hp 100 is red while the three-level show_stats
rule gives 40 the warning orange. The two-level rule and the clamp are
stated on the percentage field of the view itself, so they hold whatever
integer the floating-point division step produced and are unaffected by
the exact-arithmetic idealization inside pyIntDivMul100; the hp 40 of
max_hp 100 particular uses operands at which the double computation is
exact. -/
theorem render_hud_two_level_amended (player : Dict) (view : HudView)
    (h : render_hud_view player = .ok view) :
    (view.hp_color = "#00C851" ↔ 50 < view.hp_percent) ∧
    (0 ≤ view.hp_percent ∧ view.hp_percent ≤ 100) ∧
    ((render_hud_view hero40).toOption.map (fun v => v.hp_color) =
      some "#ff4444") ∧
    _get_bar_color 40 = "#ffbb33" := by
  cases hdiv : pyIntDivMul100 (effField player "hp" (.pyInt 100))
      (effField player "max_hp" (.pyInt 100)) with
  | error e =>
    simp only [render_hud_view, hdiv] at h
    exact Except.noConfusion h
  | ok raw =>
    simp only [render_hud_view, hdiv, Except.ok.injEq] at h
    subst h
    refine ⟨?_, ⟨le_min (by norm_num) (le_max_left 0 raw), min_le_left _ _⟩,
      rfl, rfl⟩
    dsimp only
    by_cases hgt : 50 < min 100 (max 0 raw)
    · rw [if_pos hgt]
      exact iff_of_true rfl hgt
    · rw [if_neg hgt]
      refine iff_of_false ?_ hgt
      intro hcontra
      exact absurd hcontra (by decide)

theorem render_hud_two_level_witness :
    (("#ff4444" : String) = "#00C851" ↔ 50 < (40 : Int)) ∧
    ((0 : Int) ≤ 40 ∧ (40 : Int) ≤ 100) ∧
    ((render_hud_view hero40).toOption.map (fun v => v.hp_color) =
      some "#ff4444") ∧
    _get_bar_color 40 = "#ffbb33" :=
  render_hud_two_level_amended hero40
    ⟨.pyStr "Hero", .pyInt 40, .pyInt 100, .pyInt 50, 40, "#ff4444"⟩ rfl

theorem show_pet_dict_defaults (d : Dict) (h : petStatsFieldsOk d = true) :
    (show_pet_dict_view d).toOption.isSome = true ∧
    (dictGet d "name" = none →
      (show_pet_dict_view d).toOption.map (fun v => v.stats.name) =
        some (.pyStr "Unknown")) ∧
    (dictGet d "hp" = none →
      (show_pet_dict_view d).toOption.map (fun v => v.stats.bars.head?) =
        some (some ⟨"HP", .pyInt 0, "#ff4444", 0⟩)) ∧
    (dictGet d "hunger" = none →
      (show_pet_dict_view d).toOption.map (fun v => v.stats.bars[1]?) =
        some (some ⟨"Hunger", .pyInt 0, "#ff4444", 0⟩)) ∧
    (dictGet d "happiness" = none →
      (show_pet_dict_view d).toOption.map (fun v => v.stats.bars.length) =
        some 2) ∧
    (dictGet d "mood" = none →
      (show_pet_dict_view d).toOption.map (fun v => v.petMood) =
        some (.pyStr "normal")) := by
  simp only [petStatsFieldsOk, Bool.and_eq_true, Bool.or_eq_true] at h
  obtain ⟨⟨hhp, hhu⟩, hha⟩ := h
  obtain ⟨nh, hnh⟩ := isIntLike_toNum _ hhp
  obtain ⟨nu, hnu⟩ := isIntLike_toNum _ hhu
  have hbarHP := _create_bar_html_num "HP" _ nh hnh
  have hbarHU := _create_bar_html_num "Hunger" _ nu hnu
  by_cases hpn : isPyNone (effField d "happiness" .pyNone) = true
  · have hview : show_pet_dict_view d = .ok
        ⟨effField d "mood" (.pyStr "normal"),
         ⟨effField d "name" (.pyStr "Unknown"),
          [⟨"HP", effField d "hp" (.pyInt 0), _get_bar_color nh, min nh 100⟩,
           ⟨"Hunger", effField d "hunger" (.pyInt 0), _get_bar_color nu,
            min nu 100⟩]⟩⟩ := by
      simp [show_pet_dict_view, show_stats_view, hbarHP, hbarHU, hpn]
    refine ⟨?_, ?_, ?_, ?_, ?_, ?_⟩
    · rw [hview]; rfl
    · intro h0
      rw [effField_none d "name" (.pyStr "Unknown") h0] at hview
      rw [hview]
      rfl
    · intro h0
      have e1 : effField d "hp" (.pyInt 0) = .pyInt 0 := effField_none _ _ _ h0
      rw [e1] at hnh hview
      have e2 : nh = 0 := by simp [toNum] at hnh; omega
      rw [e2] at hview
      rw [hview]
      rfl
    · intro h0
      have e1 : effField d "hunger" (.pyInt 0) = .pyInt 0 := effField_none _ _ _ h0
      rw [e1] at hnu hview
      have e2 : nu = 0 := by simp [toNum] at hnu; omega
      rw [e2] at hview
      rw [hview]
      rfl
    · intro h0
      rw [hview]
      rfl
    · intro h0
      rw [effField_none d "mood" (.pyStr "normal") h0] at hview
      rw [hview]
      rfl
  · have hpn2 : isPyNone (effField d "happiness" .pyNone) = false := by
      simpa using hpn
    have hint : isIntLike (effField d "happiness" .pyNone) = true := by
      rcases hha with hcon | hok
      · exact absurd hcon hpn
      · exact hok
    obtain ⟨na, hna⟩ := isIntLike_toNum _ hint
    have hbarHA := _create_bar_html_num "Happiness" _ na hna
    have hview : show_pet_dict_view d = .ok
        ⟨effField d "mood" (.pyStr "normal"),
         ⟨effField d "name" (.pyStr "Unknown"),
          [⟨"HP", effField d "hp" (.pyInt 0), _get_bar_color nh, min nh 100⟩,
           ⟨"Hunger", effField d "hunger" (.pyInt 0), _get_bar_color nu,
            min nu 100⟩,
           ⟨"Happiness", effField d "happiness" .pyNone, _get_bar_color na,
            min na 100⟩]⟩⟩ := by
      simp [show_pet_dict_view, show_stats_view, hbarHP, hbarHU, hpn2, hbarHA]
    refine ⟨?_, ?_, ?_, ?_, ?_, ?_⟩
    · rw [hview]; rfl
    · intro h0
      rw [effField_none d "name" (.pyStr "Unknown") h0] at hview
      rw [hview]
      rfl
    · intro h0
      have e1 : effField d "hp" (.pyInt 0) = .pyInt 0 := effField_none _ _ _ h0
      rw [e1] at hnh hview
      have e2 : nh = 0 := by simp [toNum] at hnh; omega
      rw [e2] at hview
      rw [hview]
      rfl
    · intro h0
      have e1 : effField d "hunger" (.pyInt 0) = .pyInt 0 := effField_none _ _ _ h0
      rw [e1] at hnu hview
      have e2 : nu = 0 := by simp [toNum] at hnu; omega
      rw [e2] at hview
      rw [hview]
      rfl
    · intro h0
      have : isPyNone (effField d "happiness" .pyNone) = true := by
        rw [effField_none d "happiness" .pyNone h0]
        rfl
      exact absurd this hpn
    · intro h0
      rw [effField_none d "mood" (.pyStr "normal") h0] at hview
      rw [hview]
      rfl

theorem show_pet_dict_defaults_witness :
    (show_pet_dict_view []).toOption.isSome = true ∧
    (dictGet [] "name" = none →
      (show_pet_dict_view []).toOption.map (fun v => v.stats.name) =
        some (.pyStr "Unknown")) ∧
    (dictGet [] "hp" = none →
      (show_pet_dict_view []).toOption.map (fun v => v.stats.bars.head?) =
        some (some ⟨"HP", .pyInt 0, "#ff4444", 0⟩)) ∧
    (dictGet [] "hunger" = none →
      (show_pet_dict_view []).toOption.map (fun v => v.stats.bars[1]?) =
        some (some ⟨"Hunger", .pyInt 0, "#ff4444", 0⟩)) ∧
    (dictGet [] "happiness" = none →
      (show_pet_dict_view []).toOption.map (fun v => v.stats.bars.length) =
        some 2) ∧
    (dictGet [] "mood" = none →
      (show_pet_dict_view []).toOption.map (fun v => v.petMood) =
        some (.pyStr "normal")) :=
  show_pet_dict_defaults [] (by decide)
